import Mathlib

/-!
Shallow embedding of the SelfHealingAPI deployer subsystem
(src/packages/deployer/{metrics,injector,rollback}.ts and canary.ts).

Modelling conventions:
* JS numbers are embedded as `ℚ` (rates, latencies, percentages) or `Int`
  (millisecond timestamps from `Date.now()`); counters are `ℕ`.
* JS `Map` objects are embedded as association lists with first-match lookup;
  `Map.set` replaces in place (or appends when the key is absent), `Map.delete`
  filters the key out, mirroring JS insertion-order semantics.
* Stateful methods become functions from state to state (paired with a result
  where the method returns or throws).  A thrown `Error` becomes an error
  result with the state returned unchanged, matching the fact that the TS
  methods throw before any mutation or after none.
* Wall-clock reads (`Date.now()`) become an explicit `now : Int` parameter;
  ISO-string timestamps are embedded as the underlying millisecond instant.
-/

namespace SelfHealingAPI

/-! ### Metrics collector (`metrics.ts`) -/

/-- `Math.round(q * 1000) / 1000` — round to 3 decimal places.
`Mathlib.round` is `⌊q + 1/2⌋`, which agrees with JS `Math.round`. -/
def jsRound1000 (q : ℚ) : ℚ := ((round (q * 1000) : ℤ) : ℚ) / 1000

/-- `Math.round(q * 100) / 100` — round to 2 decimal places. -/
def jsRound100 (q : ℚ) : ℚ := ((round (q * 100) : ℤ) : ℚ) / 100

/-- One recorded request (`RequestMetric` in metrics.ts). -/
structure RequestMetric where
  timestamp : Int
  statusCode : Nat
  responseTime : ℚ
  path : String
deriving DecidableEq, Repr

/-- Per-endpoint request buffer (`EndpointMetrics` in metrics.ts). -/
structure EndpointMetrics where
  requests : List RequestMetric
  startTime : Int
  lastCleanup : Int
deriving DecidableEq, Repr

/-- A metrics snapshot (`DeploymentMetrics` in types.ts); the ISO `timestamp`
string is embedded as the millisecond instant it renders. -/
structure DeploymentMetrics where
  successRate : ℚ
  errorRate : ℚ
  latency : ℚ
  throughput : ℚ
  timestamp : Int
  sampleSize : Nat
deriving DecidableEq, Repr

/-- First-match association-list lookup (JS `Map.get`). -/
def alookup {β : Type} (k : String) : List (String × β) → Option β
  | [] => none
  | (k', v) :: rest => if k' = k then some v else alookup k rest

/-- JS `Map.set`: replace the (unique) entry for the key in place if present,
append otherwise — preserving insertion order, as JS `Map` does. -/
def mapSet {β : Type} (l : List (String × β)) (k : String) (v : β) :
    List (String × β) :=
  match l with
  | [] => [(k, v)]
  | (k', v') :: rest =>
    if k' = k then (k, v) :: rest else (k', v') :: mapSet rest k v

/-- JS `Map.delete`. -/
def mapDelete {β : Type} (l : List (String × β)) (k : String) :
    List (String × β) :=
  l.filter (fun kv => kv.1 ≠ k)

/-- State of `DeploymentMetricsCollector`: `endpointMetrics`, `baselines`,
`activeCollectors` (the `Set` is a duplicate-free list). -/
structure CollectorState where
  endpointMetrics : List (String × EndpointMetrics)
  baselines : List (String × DeploymentMetrics)
  activeCollectors : List String
deriving DecidableEq, Repr

/-- `startCollection` (metrics.ts:15-43).  The deferred baseline
establishment runs on a 5-second timer and only calls `setBaseline`;
it is not part of the synchronous state change modelled here. -/
def startCollection (s : CollectorState) (endpoint : String) (now : Int) :
    CollectorState :=
  if s.activeCollectors.contains endpoint then s
  else
    { s with
      endpointMetrics :=
        mapSet s.endpointMetrics endpoint
          { requests := [], startTime := now, lastCleanup := now },
      activeCollectors := s.activeCollectors ++ [endpoint] }

/-- `stopCollection` (metrics.ts:48-51): drop the endpoint from the set of
active collectors; recorded requests are retained. -/
def stopCollection (s : CollectorState) (endpoint : String) : CollectorState :=
  { s with activeCollectors := s.activeCollectors.filter (· ≠ endpoint) }

/-- `setBaseline` (metrics.ts:99-101). -/
def setBaseline (s : CollectorState) (endpoint : String)
    (metrics : DeploymentMetrics) : CollectorState :=
  { s with baselines := mapSet s.baselines endpoint metrics }

/-- The recent-request filter used by `calculateMetrics` (metrics.ts:112-113):
requests with `timestamp >= now - windowSeconds*1000`. -/
def recentRequests (em : EndpointMetrics) (windowSeconds now : Int) :
    List RequestMetric :=
  em.requests.filter (fun r => now - windowSeconds * 1000 ≤ r.timestamp)

/-- `calculateMetrics` (metrics.ts:106-142): `none` when the endpoint has no
buffer or no requests fall inside the window. -/
def calculateMetrics (s : CollectorState) (endpoint : String)
    (windowSeconds now : Int) : Option DeploymentMetrics :=
  match alookup endpoint s.endpointMetrics with
  | none => none
  | some em =>
    let recent := recentRequests em windowSeconds now
    if recent.length = 0 then none
    else
      let successful := recent.filter
        (fun r => decide (200 ≤ r.statusCode) && decide (r.statusCode < 400))
      let errs := recent.filter (fun r => decide (400 ≤ r.statusCode))
      let successRate : ℚ := (successful.length : ℚ) / (recent.length : ℚ)
      let errorRate : ℚ := (errs.length : ℚ) / (recent.length : ℚ)
      let averageLatency : ℚ :=
        ((recent.map (·.responseTime)).foldl (· + ·) 0) / (recent.length : ℚ)
      let throughput : ℚ := (recent.length : ℚ) / (windowSeconds : ℚ)
      some
        { successRate := jsRound1000 successRate,
          errorRate := jsRound1000 errorRate,
          latency := jsRound100 averageLatency,
          throughput := jsRound100 throughput,
          timestamp := now,
          sampleSize := recent.length }

/-- `getEmptyMetrics` (metrics.ts:171-180): the sentinel empty snapshot. -/
def getEmptyMetrics (now : Int) : DeploymentMetrics :=
  { successRate := 0, errorRate := 0, latency := 0, throughput := 0,
    timestamp := now, sampleSize := 0 }

/-- `getMetrics` (metrics.ts:79-87); the TS default window is 60 seconds. -/
def getMetrics (s : CollectorState) (endpoint : String)
    (windowSeconds now : Int) : DeploymentMetrics :=
  match calculateMetrics s endpoint windowSeconds now with
  | none => getEmptyMetrics now
  | some m => m

/-- `MetricsComparison` (metrics.ts:293-299). -/
structure MetricsComparison where
  hasBaseline : Bool
  successRateChange : ℚ
  errorRateChange : ℚ
  latencyChange : ℚ
  throughputChange : ℚ
deriving DecidableEq, Repr

/-- `compareWithBaseline` (metrics.ts:185-205).  NOTE: when the baseline
latency or throughput is 0 the TS division yields ±Infinity/NaN; in `ℚ`
division by zero yields 0.  No claim in scope depends on that corner. -/
def compareWithBaseline (s : CollectorState) (endpoint : String)
    (currentMetrics : DeploymentMetrics) : MetricsComparison :=
  match alookup endpoint s.baselines with
  | none =>
    { hasBaseline := false, successRateChange := 0, errorRateChange := 0,
      latencyChange := 0, throughputChange := 0 }
  | some baseline =>
    { hasBaseline := true,
      successRateChange := currentMetrics.successRate - baseline.successRate,
      errorRateChange := currentMetrics.errorRate - baseline.errorRate,
      latencyChange := (currentMetrics.latency - baseline.latency) / baseline.latency,
      throughputChange :=
        (currentMetrics.throughput - baseline.throughput) / baseline.throughput }

/-- Rollback thresholds passed to `checkHealthThresholds`
(`rollbackThresholds` in types.ts). -/
structure HealthThresholds where
  successRate : ℚ
  errorRate : ℚ
  latencyIncrease : ℚ
deriving DecidableEq, Repr

/-- The four component checks of `checkHealthThresholds` (metrics.ts:217-222). -/
structure HealthChecks where
  successRateOk : Bool
  errorRateOk : Bool
  latencyOk : Bool
  sampleSizeOk : Bool
deriving DecidableEq, Repr

/-- The issue categories produced by `identifyIssues` (metrics.ts:238-255).
The TS builds human-readable strings; only the category is load-bearing. -/
inductive Issue
  | lowSuccessRate
  | highErrorRate
  | highLatency
  | insufficientSampleSize
deriving DecidableEq, Repr

/-- `identifyIssues` (metrics.ts:238-255). -/
def identifyIssues (checks : HealthChecks) : List Issue :=
  (if checks.successRateOk then [] else [Issue.lowSuccessRate]) ++
  (if checks.errorRateOk then [] else [Issue.highErrorRate]) ++
  (if checks.latencyOk then [] else [Issue.highLatency]) ++
  (if checks.sampleSizeOk then [] else [Issue.insufficientSampleSize])

/-- Result of `checkHealthThresholds` (`HealthCheck` in metrics.ts). -/
structure HealthCheck where
  healthy : Bool
  checks : HealthChecks
  metrics : DeploymentMetrics
  comparison : MetricsComparison
  issues : List Issue
deriving DecidableEq, Repr

/-- `checkHealthThresholds` (metrics.ts:210-233).  It reads the current
metrics over the default 60-second window; `healthy` is the conjunction of
all four checks, including the `sampleSize >= 10` gate. -/
def checkHealthThresholds (s : CollectorState) (endpoint : String)
    (thresholds : HealthThresholds) (now : Int) : HealthCheck :=
  let currentMetrics := getMetrics s endpoint 60 now
  let comparison := compareWithBaseline s endpoint currentMetrics
  let checks : HealthChecks :=
    { successRateOk := decide (thresholds.successRate ≤ currentMetrics.successRate),
      errorRateOk := decide (currentMetrics.errorRate ≤ thresholds.errorRate),
      latencyOk := !comparison.hasBaseline ||
        decide (comparison.latencyChange ≤ thresholds.latencyIncrease),
      sampleSizeOk := decide (10 ≤ currentMetrics.sampleSize) }
  let healthy := checks.successRateOk && checks.errorRateOk &&
    checks.latencyOk && checks.sampleSizeOk
  { healthy := healthy, checks := checks, metrics := currentMetrics,
    comparison := comparison,
    issues := if healthy then [] else identifyIssues checks }

/-! ### Rollback manager (`rollback.ts`) -/

/-- The metric kinds of a `RollbackTrigger`
(`'error-rate' | 'response-time' | 'success-rate'` in types.ts). -/
inductive TriggerMetric
  | errorRate
  | successRate
  | responseTime
deriving DecidableEq, Repr

/-- `RollbackTrigger` (types.ts:102-106). -/
structure RollbackTrigger where
  metric : TriggerMetric
  threshold : ℚ
  duration : Int
deriving DecidableEq, Repr

/-- `'manual' | 'automatic' | 'timeout'` of `RollbackPlan.trigger`. -/
inductive PlanTriggerKind
  | manual
  | automatic
  | timeout
deriving DecidableEq, Repr

/-- `'immediate' | 'gradual'` rollback strategy. -/
inductive RollbackStrategy
  | immediate
  | gradual
deriving DecidableEq, Repr

/-- `RollbackPlan` (types.ts:92-100). -/
structure RollbackPlan where
  id : String
  deploymentId : String
  trigger : PlanTriggerKind
  strategy : RollbackStrategy
  preserveData : Bool
  backupLocation : Option String
  triggers : Option (List RollbackTrigger)
deriving DecidableEq, Repr

/-- `RollbackViolation` (rollback.ts:458-463); the `reason` string is
human-readable text derived from the other fields and is omitted. -/
structure RollbackViolation where
  timestamp : Int
  trigger : RollbackTrigger
  currentValue : ℚ
deriving DecidableEq, Repr

/-- `RollbackMonitor` (rollback.ts:447-456). -/
structure RollbackMonitor where
  id : String
  deploymentId : String
  rollbackPlan : RollbackPlan
  startTime : Int
  active : Bool
  checks : Nat
  lastCheck : Int
  violations : List RollbackViolation
deriving DecidableEq, Repr

/-- The per-trigger body of the `evaluateRollbackTriggers` loop
(rollback.ts:192-221): a violation is produced when the trigger's metric
crosses its threshold in the trigger-specific direction. -/
def triggerViolation (m : DeploymentMetrics) (t : RollbackTrigger)
    (now : Int) : Option RollbackViolation :=
  let currentValue : ℚ :=
    match t.metric with
    | .errorRate => m.errorRate
    | .successRate => m.successRate
    | .responseTime => m.latency
  let violated : Bool :=
    match t.metric with
    | .errorRate => decide (t.threshold < currentValue)
    | .successRate => decide (currentValue < t.threshold)
    | .responseTime => decide (t.threshold < currentValue)
  if violated then
    some { timestamp := now, trigger := t, currentValue := currentValue }
  else none

/-- `evaluateRollbackTriggers` (rollback.ts:178-224); returns `[]` when the
plan has no `triggers` list. -/
def evaluateRollbackTriggers (m : DeploymentMetrics)
    (triggers : Option (List RollbackTrigger)) (now : Int) :
    List RollbackViolation :=
  match triggers with
  | none => []
  | some ts => ts.filterMap (fun t => triggerViolation m t now)

/-- The critical-violation test of `shouldTriggerRollback`
(rollback.ts:234-237): error-rate above 0.5 or success-rate below 0.5. -/
def isCritical (v : RollbackViolation) : Bool :=
  (decide (v.trigger.metric = TriggerMetric.errorRate) &&
    decide ((1 : ℚ) / 2 < v.currentValue)) ||
  (decide (v.trigger.metric = TriggerMetric.successRate) &&
    decide (v.currentValue < (1 : ℚ) / 2))

/-- `shouldTriggerRollback` (rollback.ts:229-260).  `monitorViolations` is
`monitor.violations` as seen at the call site, i.e. already including the
current poll's violations (performHealthCheck pushes them first). -/
def shouldTriggerRollback (monitorViolations violations : List RollbackViolation)
    (now : Int) : Bool :=
  let criticalViolations := violations.filter isCritical
  if 0 < criticalViolations.length then true
  else
    let recentViolations :=
      monitorViolations.filter (fun v => decide (now - v.timestamp < 60000))
    let sustainedViolations := violations.filter (fun v =>
      3 ≤ (recentViolations.filter
        (fun rv => decide (rv.trigger.metric = v.trigger.metric))).length)
    0 < sustainedViolations.length

/-- The violation-evaluation core of `performHealthCheck`
(rollback.ts:129-173), for a monitored deployment that is still mid-stage:
bump the check counter, evaluate the plan's triggers against the current
metrics, append any violations to the monitor's history, and decide whether
to roll back.  The surrounding deployment-status fetch, endpoint extraction
and the rollback execution itself are orchestration around this core. -/
def performHealthCheckCore (monitor : RollbackMonitor)
    (currentMetrics : DeploymentMetrics) (now : Int) :
    Bool × RollbackMonitor :=
  let monitor := { monitor with checks := monitor.checks + 1, lastCheck := now }
  let violations :=
    evaluateRollbackTriggers currentMetrics monitor.rollbackPlan.triggers now
  if 0 < violations.length then
    let monitor := { monitor with violations := monitor.violations ++ violations }
    (shouldTriggerRollback monitor.violations violations now, monitor)
  else (false, monitor)

/-! ### Canary deployer (`canary.ts`) -/

/-- `DeploymentStatus.stage` (types.ts:38). -/
inductive Stage
  | planning
  | deploying
  | monitoring
  | promoting
  | completed
  | rollingBack
  | failed
deriving DecidableEq, Repr

/-- `DeploymentEvent.type` (types.ts:53). -/
inductive EventType
  | stageStart
  | stageComplete
  | metricsCheck
  | rollback
  | error
deriving DecidableEq, Repr

/-- `DeploymentEvent` (types.ts:51-57); the optional untyped `data` payload
is omitted, the `message` is kept. -/
structure DeploymentEvent where
  timestamp : Int
  etype : EventType
  message : String
deriving DecidableEq, Repr

/-- `CanaryStage` (types.ts:14-19). -/
structure CanaryStage where
  percentage : ℚ
  duration : Int
  successThreshold : ℚ
  maxErrorRate : ℚ
deriving DecidableEq, Repr

/-- `DeploymentPlan` (types.ts:21-34); the nested `monitoring` record is
flattened into the two fields. -/
structure DeploymentPlan where
  id : String
  fixId : String
  stages : List CanaryStage
  rollbackThresholds : HealthThresholds
  monitoringWindowSize : Int
  monitoringSampleFrequency : Int
deriving DecidableEq, Repr

/-- The `metrics` sub-record of `DeploymentStatus` (types.ts:43-47). -/
structure MetricsTriple where
  baseline : DeploymentMetrics
  current : DeploymentMetrics
  history : List DeploymentMetrics
deriving DecidableEq, Repr

/-- `DeploymentStatus` (types.ts:36-49). -/
structure DeploymentStatus where
  id : String
  stage : Stage
  currentStage : Int
  trafficPercentage : ℚ
  startTime : Int
  lastUpdate : Int
  metrics : MetricsTriple
  events : List DeploymentEvent
deriving DecidableEq, Repr

/-- `FeatureFlag` (types.ts:59-64); the optional `conditions` list is unused
by canary.ts and omitted. -/
structure FeatureFlag where
  key : String
  enabled : Bool
  rolloutPercentage : ℚ
deriving DecidableEq, Repr

/-- `MiddlewareDefinition.conditions` (types.ts:78-82). -/
structure MiddlewareConditions where
  methods : Option (List String)
  paths : Option (List String)
  headers : Option (List (String × String))
deriving DecidableEq, Repr

/-- `MiddlewareDefinition` (types.ts:72-83). -/
structure MiddlewareDefinition where
  id : String
  name : String
  code : String
  targetEndpoint : String
  priority : Int
  conditions : Option MiddlewareConditions
deriving DecidableEq, Repr

/-- `ActiveDeployment` (canary.ts:440-447).  `rollbackFunction` is set to
`null` at creation and never reassigned anywhere in the repository, so it is
omitted (the rollback path treats a null function as a no-op). -/
structure ActiveDeployment where
  id : String
  middleware : MiddlewareDefinition
  plan : DeploymentPlan
  status : DeploymentStatus
  stageStartTime : Int
deriving DecidableEq, Repr

/-- State of `CanaryDeployer`: the `deployments` and `featureFlags` maps. -/
structure CanaryState where
  deployments : List (String × ActiveDeployment)
  featureFlags : List (String × FeatureFlag)
deriving DecidableEq, Repr

/-- `'manual' | 'automatic'` trigger argument of `rollbackDeployment`. -/
inductive DeployTrigger
  | manual
  | automatic
deriving DecidableEq, Repr

def deployTriggerName : DeployTrigger → String
  | .manual => "manual"
  | .automatic => "automatic"

/-- `addEvent` at the status level (canary.ts:379-398): append the event,
keep only the last 50, and refresh `lastUpdate` (via `updateDeployment`). -/
def addEventStatus (st : DeploymentStatus) (etype : EventType)
    (message : String) (now : Int) : DeploymentStatus :=
  let events := st.events ++ [{ timestamp := now, etype := etype, message := message }]
  let events := if 50 < events.length then events.drop (events.length - 50) else events
  { st with events := events, lastUpdate := now }

/-- `findIndex(s => s.percentage === percentage)` (canary.ts:144);
`-1` when absent. -/
def findStageIdx (stages : List CanaryStage) (p : ℚ) : Int :=
  match stages.findIdx? (fun s => decide (s.percentage = p)) with
  | some i => (i : Int)
  | none => -1

/-- The status update performed by `deployToPercentage` (canary.ts:125-158):
record the stage index, set the traffic percentage, move to `monitoring`,
and log a stage-start event. -/
def deployToPercentageStatus (plan : DeploymentPlan) (st : DeploymentStatus)
    (p : ℚ) (now : Int) : DeploymentStatus :=
  let st := { st with
    currentStage := findStageIdx plan.stages p,
    trafficPercentage := p,
    stage := Stage.monitoring,
    lastUpdate := now }
  addEventStatus st EventType.stageStart "Deployed to traffic percentage" now

/-- The status update performed by `completeDeployment` (canary.ts:258-275):
stage `completed`, traffic at 100%, completion event. -/
def completeStatus (st : DeploymentStatus) (now : Int) : DeploymentStatus :=
  addEventStatus
    { st with stage := Stage.completed, trafficPercentage := 100, lastUpdate := now }
    EventType.stageComplete "Deployment completed successfully" now

/-- First status update of `rollbackDeployment` (canary.ts:286-287): mark
the deployment as rolling back (traffic is untouched at this point). -/
def rollbackMarkStatus (st : DeploymentStatus) (now : Int) : DeploymentStatus :=
  { st with stage := Stage.rollingBack, lastUpdate := now }

/-- Final status update of `rollbackDeployment` (canary.ts:302-310): stage
`failed`, traffic dropped to 0, rollback event logged. -/
def rollbackFinishStatus (st : DeploymentStatus) (trigger : DeployTrigger)
    (now : Int) : DeploymentStatus :=
  addEventStatus
    { st with stage := Stage.failed, trafficPercentage := 0, lastUpdate := now }
    EventType.rollback
    ("Deployment rolled back (" ++ deployTriggerName trigger ++ ")") now

/-! ### Middleware injector (`injector.ts`) -/

/-- `HotDeployConfig` (types.ts:85-90). -/
structure HotDeployConfig where
  safeMode : Bool
  validateBeforeDeploy : Bool
  backupPrevious : Bool
  maxConcurrentDeploys : Nat
deriving DecidableEq, Repr

/-- `InjectedMiddleware` (injector.ts:417-427).  The `function` and
`wrappedFunction` JS closures are not data; the wrapped callable's behavior
is modelled by `wrapperInvoke` below. -/
structure InjectedMiddleware where
  id : String
  definition : MiddlewareDefinition
  deployedAt : Int
  backupPath : Option String
  active : Bool
  requestCount : Nat
  errorCount : Nat
deriving DecidableEq, Repr

/-- State of `MiddlewareInjector`: the `activeMiddleware` map (which holds
inactive records too until they are deleted), the `middlewareStack`, and the
configuration fixed at construction. -/
structure InjectorState where
  activeMiddleware : List (String × InjectedMiddleware)
  middlewareStack : List MiddlewareDefinition
  config : HotDeployConfig
deriving DecidableEq, Repr

/-- The two synchronous failure modes of `injectMiddleware`: the validation
throw (injector.ts:315-344) and the capacity throw (injector.ts:45-47). -/
inductive InjectError
  | validationError
  | capacityError
deriving DecidableEq, Repr

/-- `injectMiddleware` (injector.ts:30-90).  `validationOk` abstracts the
outcome of `validateMiddleware` on the JS callable (arity check plus
dangerous-pattern denylist); `injectionId` stands for the fresh
`randomUUID()`.  The filesystem path of the backup file is abstracted.
A throw returns the state unchanged: in the TS, both throws happen before
any mutation of the registry. -/
def injectMiddleware (s : InjectorState) (definition : MiddlewareDefinition)
    (validationOk : Bool) (injectionId : String) (now : Int) :
    Except InjectError String × InjectorState :=
  if s.config.validateBeforeDeploy && !validationOk then
    (Except.error InjectError.validationError, s)
  else if s.config.maxConcurrentDeploys ≤ s.activeMiddleware.length then
    (Except.error InjectError.capacityError, s)
  else
    let backupPath :=
      if s.config.backupPrevious then some (definition.id ++ "_backup") else none
    let injected : InjectedMiddleware :=
      { id := injectionId, definition := definition, deployedAt := now,
        backupPath := backupPath, active := true,
        requestCount := 0, errorCount := 0 }
    (Except.ok injectionId,
      { s with
        activeMiddleware := mapSet s.activeMiddleware injectionId injected,
        middlewareStack := s.middlewareStack ++ [definition] })

/-- `removeMiddleware` (injector.ts:95-131): missing id is an error with the
state unchanged; otherwise the record is flipped inactive and deleted from
the registry, and its definition is filtered out of the stack.  (The TS also
best-effort-unlinks the backup file, errors swallowed.) -/
def removeMiddleware (s : InjectorState) (injectionId : String) :
    Except String Unit × InjectorState :=
  match alookup injectionId s.activeMiddleware with
  | none => (Except.error "Middleware not found", s)
  | some m =>
    (Except.ok (),
      { s with
        activeMiddleware := mapDelete s.activeMiddleware injectionId,
        middlewareStack :=
          s.middlewareStack.filter (fun d => d.id ≠ m.definition.id) })

/-- An incoming request as seen by the wrapper middleware; `injectionId` and
`middlewareName` are the metadata fields the wrapper stamps onto `req`. -/
structure Request where
  method : String
  path : String
  headers : List (String × String)
  injectionId : Option String
  middlewareName : Option String
deriving DecidableEq, Repr

/-- `matchesConditions` (injector.ts:287-310). -/
def matchesConditions (req : Request) (conditions : Option MiddlewareConditions) :
    Bool :=
  match conditions with
  | none => true
  | some c =>
    (match c.methods with
     | none => true
     | some ms => ms.contains req.method) &&
    (match c.paths with
     | none => true
     | some ps => ps.any (fun p => req.path.startsWith p)) &&
    (match c.headers with
     | none => true
     | some hs => hs.all (fun kv => alookup kv.1 req.headers == some kv.2))

/-- Whether the wrapper ran the injected patch or short-circuited. -/
inductive WrapOutcome
  | passedThrough
  | executed
deriving DecidableEq, Repr

/-- One invocation of the wrapper produced by `createWrapperMiddleware`
(injector.ts:175-227).  `patch` abstracts the injected JS middleware: it
may transform the request and reports whether it errored (the TS counts a
`next(error)` call and a thrown exception identically via `errorCount++`).
When the injection is absent from the registry, inactive, or the request
does not match its conditions, the wrapper calls `next()` with the request
untouched and records nothing. -/
def wrapperInvoke (s : InjectorState) (injectionId : String)
    (definition : MiddlewareDefinition) (patch : Request → Request × Bool)
    (req : Request) : WrapOutcome × Request × InjectorState :=
  match alookup injectionId s.activeMiddleware with
  | none => (WrapOutcome.passedThrough, req, s)
  | some m =>
    if !m.active then (WrapOutcome.passedThrough, req, s)
    else if !matchesConditions req definition.conditions then
      (WrapOutcome.passedThrough, req, s)
    else
      let m1 := { m with requestCount := m.requestCount + 1 }
      let req1 := { req with
        injectionId := some injectionId,
        middlewareName := some definition.name }
      let res := patch req1
      let m2 := if res.2 then { m1 with errorCount := m1.errorCount + 1 } else m1
      (WrapOutcome.executed, res.1,
        { s with activeMiddleware := mapSet s.activeMiddleware injectionId m2 })

/-- `getAllInjections` (injector.ts:379-381). -/
def getAllInjections (s : InjectorState) : List InjectedMiddleware :=
  (s.activeMiddleware.map (·.2)).filter (·.active)

/-- A patch's contribution to the average error rate
(injector.ts:394: `errorCount / Math.max(requestCount, 1)`). -/
def perMiddlewareErrorRate (m : InjectedMiddleware) : ℚ :=
  (m.errorCount : ℚ) / ((max m.requestCount 1 : ℕ) : ℚ)

/-- `InjectionStatistics` (injector.ts:429-435); `oldestDeployment` is
`null` when no patch is active. -/
structure InjectionStatistics where
  totalActive : Nat
  totalRequests : Nat
  totalErrors : Nat
  averageErrorRate : ℚ
  oldestDeployment : Option Int
deriving DecidableEq, Repr

/-- `getStatistics` (injector.ts:386-400). -/
def getStatistics (s : InjectorState) : InjectionStatistics :=
  let active := getAllInjections s
  { totalActive := active.length,
    totalRequests := (active.map (·.requestCount)).sum,
    totalErrors := (active.map (·.errorCount)).sum,
    averageErrorRate :=
      if 0 < active.length then
        (active.map perMiddlewareErrorRate).sum / (active.length : ℚ)
      else 0,
    oldestDeployment := (active.map (·.deployedAt)).min? }

/-- `emergencyStop` (injector.ts:405-414): flip every record in the registry
to `active := false` (records are not deleted). -/
def emergencyStop (s : InjectorState) : InjectorState :=
  { s with activeMiddleware :=
      s.activeMiddleware.map (fun kv => (kv.1, { kv.2 with active := false })) }

/-! ### Composite system state and cross-component operations -/

/-- The deployer subsystem as wired by `SelfHealingDeployer`: one canary
deployer and one metrics collector (shared), plus the injector. -/
structure SystemState where
  canary : CanaryState
  collector : CollectorState
  injector : InjectorState
deriving DecidableEq, Repr

/-- `rollbackDeployment` (canary.ts:280-316).  Unknown ids return silently.
Otherwise: mark the status `rolling-back`, delete the deployment's feature
flag, (run the always-null `rollbackFunction`), set the status to `failed`
with traffic 0 plus a rollback event, and stop metrics collection for the
middleware's target endpoint.  The injector is untouched. -/
def rollbackDeployment (sys : SystemState) (deploymentId : String)
    (trigger : DeployTrigger) (now : Int) : SystemState :=
  match alookup deploymentId sys.canary.deployments with
  | none => sys
  | some d =>
    let st1 := rollbackMarkStatus d.status now
    let deps1 := mapSet sys.canary.deployments deploymentId { d with status := st1 }
    let flags1 := mapDelete sys.canary.featureFlags ("deployment_" ++ deploymentId)
    let st2 := rollbackFinishStatus st1 trigger now
    let deps2 := mapSet deps1 deploymentId { d with status := st2 }
    { sys with
      canary := { deployments := deps2, featureFlags := flags1 },
      collector := stopCollection sys.collector d.middleware.targetEndpoint }

/-- `getActiveDeployments` (canary.ts:346-348): the statuses of every
deployment in the map (completed and failed ones included). -/
def getActiveDeployments (c : CanaryState) : List DeploymentStatus :=
  c.deployments.map (fun kv => kv.2.status)

/-- `emergencyRollbackAll` (rollback.ts:395-412): roll back every deployment
whose stage is neither `completed` nor `failed`, then emergency-stop the
injector.  The `Promise.allSettled` fan-out is embedded as a sequential
fold — each `rollbackDeployment` call touches only its own deployment id. -/
def emergencyRollbackAll (sys : SystemState) (now : Int) : SystemState :=
  let ids := ((getActiveDeployments sys.canary).filter
    (fun st => !(st.stage == Stage.completed) && !(st.stage == Stage.failed))).map (·.id)
  let sys := ids.foldl (fun s id => rollbackDeployment s id DeployTrigger.automatic now) sys
  { sys with injector := emergencyStop sys.injector }

/-! ### The stage-processing trace of `processDeployment` (canary.ts:81-120)

`processDeployment` drives a deployment through its plan's stages in order:
it first flips the status to `deploying`, then for each stage calls
`deployToPercentage` and waits for `monitorStage`; a failed stage aborts
into `rollbackDeployment`, and after the last stage `completeDeployment`
runs.  `monitorStage`'s verdict depends on wall-clock metrics polling, so it
is abstracted as an oracle `outcome : ℕ → Bool` giving each stage's result;
everything else is the code's own control flow.  The trace lists the
deployment status after every update that changes `stage` or
`trafficPercentage` (monitorStage's metrics-history updates touch neither).
-/

/-- The two status updates of a rollback, in order (canary.ts:286,302-305). -/
def rollbackStatusTrace (st : DeploymentStatus) (trigger : DeployTrigger)
    (now : Int) : List DeploymentStatus :=
  let st1 := rollbackMarkStatus st now
  [st1, rollbackFinishStatus st1 trigger now]

/-- The per-stage loop of `processDeployment` (canary.ts:93-114), producing
the status trace; `k` is the index of the next stage for the oracle. -/
def runStages (plan : DeploymentPlan) (st : DeploymentStatus)
    (stages : List CanaryStage) (outcome : Nat → Bool) (k : Nat) (now : Int) :
    List DeploymentStatus :=
  match stages with
  | [] => [completeStatus st now]
  | s :: rest =>
    let st1 := deployToPercentageStatus plan st s.percentage now
    if outcome k then st1 :: runStages plan st1 rest outcome (k + 1) now
    else st1 :: rollbackStatusTrace st1 DeployTrigger.automatic now

/-- The first status update of `processDeployment` (canary.ts:86-87):
switch the stage to `deploying`. -/
def startDeployingStatus (st : DeploymentStatus) (now : Int) :
    DeploymentStatus :=
  { st with stage := Stage.deploying, lastUpdate := now }

/-- The full status trace of `processDeployment` for a deployment, from the
switch to `deploying` (canary.ts:86) onward. -/
def processDeploymentTrace (d : ActiveDeployment) (outcome : Nat → Bool)
    (now : Int) : List DeploymentStatus :=
  let st0 := startDeployingStatus d.status now
  st0 :: runStages d.plan st0 d.plan.stages outcome 0 now

/-- The statuses relevant to claim C1's monotonicity window: updates made
while the deployment is Deploying or Monitoring, plus the final
`completeDeployment` update. -/
def isActiveOrComplete (st : DeploymentStatus) : Bool :=
  st.stage == Stage.deploying || st.stage == Stage.monitoring ||
    st.stage == Stage.completed

/-- C1's monotonicity property of a status trace: `trafficPercentage` is
non-decreasing across the Deploying/Monitoring updates and the completion
update. -/
def trafficNonDecreasing (trace : List DeploymentStatus) : Prop :=
  List.Chain' (· ≤ ·) ((trace.filter isActiveOrComplete).map (·.trafficPercentage))

/-! ### Concrete states used by counterexamples and witnesses -/

/-- A middleware definition as built by `SelfHealingDeployer.deployFix`. -/
def c6def : MiddlewareDefinition :=
  { id := "middleware_1", name := "fix-signup", code := "next()",
    targetEndpoint := "/api/signup", priority := 1,
    conditions := some
      { methods := some ["POST"], paths := some ["/api/signup"],
        headers := none } }

/-- An attached patch occupying the single slot of `c6state`. -/
def c6injected : InjectedMiddleware :=
  { id := "uuid-1", definition := c6def, deployedAt := 1000,
    backupPath := none, active := true, requestCount := 0, errorCount := 0 }

/-- An injector at its concurrency cap (`maxConcurrentDeploys = 1` with one
attached patch). -/
def c6state : InjectorState :=
  { activeMiddleware := [("uuid-1", c6injected)],
    middlewareStack := [c6def],
    config := { safeMode := true, validateBeforeDeploy := true,
                backupPrevious := false, maxConcurrentDeploys := 1 } }

/-- A POST request matching `c6def`'s conditions. -/
def c7request : Request :=
  { method := "POST", path := "/api/signup", headers := [],
    injectionId := none, middlewareName := none }

/-- A successful (HTTP 200) request sample. -/
def c2request : RequestMetric :=
  { timestamp := 1000000, statusCode := 200, responseTime := 50,
    path := "/api/signup" }

/-- A collector whose window holds exactly 5 samples, all successful:
below the 10-sample gate, but with perfect success/error rates. -/
def c2state : CollectorState :=
  { endpointMetrics := [("/api/signup",
      { requests := [c2request, c2request, c2request, c2request, c2request],
        startTime := 999000, lastCleanup := 999000 })],
    baselines := [],
    activeCollectors := ["/api/signup"] }

/-- The default rollback thresholds of `createDeploymentPlan`
(canary.ts:362-366). -/
def c2thresholds : HealthThresholds :=
  { successRate := 9/10, errorRate := 1/10, latencyIncrease := 1/2 }

/-- An error-rate trigger with threshold 0.7 — a legal `RollbackTrigger`
whose threshold sits above the 0.5 critical line. -/
def c3trigger : RollbackTrigger :=
  { metric := TriggerMetric.errorRate, threshold := 7/10, duration := 30 }

def c3plan : RollbackPlan :=
  { id := "rollback_d1", deploymentId := "d1",
    trigger := PlanTriggerKind.automatic,
    strategy := RollbackStrategy.immediate, preserveData := true,
    backupLocation := none, triggers := some [c3trigger] }

def c3monitor : RollbackMonitor :=
  { id := "mon-1", deploymentId := "d1", rollbackPlan := c3plan,
    startTime := 0, active := true, checks := 0, lastCheck := 0,
    violations := [] }

/-- Metrics with error rate 0.6 (above 0.5) and success rate 0.4
(below 0.5): critical by the spec's critical-path rule. -/
def c3metrics : DeploymentMetrics :=
  { successRate := 2/5, errorRate := 3/5, latency := 100, throughput := 1,
    timestamp := 1000000, sampleSize := 20 }

/-- An error-rate trigger with threshold 0 for the C3 witness. -/
def c3witTrigger : RollbackTrigger :=
  { metric := TriggerMetric.errorRate, threshold := 0, duration := 10 }

def c3witPlan : RollbackPlan :=
  { id := "rollback_d1w", deploymentId := "d1w",
    trigger := PlanTriggerKind.automatic,
    strategy := RollbackStrategy.immediate, preserveData := true,
    backupLocation := none, triggers := some [c3witTrigger] }

/-- A monitor with an existing (non-empty) violation history, to exhibit
history-independence of the critical-path rule. -/
def c3witMonitor : RollbackMonitor :=
  { id := "mon-1w", deploymentId := "d1w", rollbackPlan := c3witPlan,
    startTime := 0, active := true, checks := 1, lastCheck := 4000,
    violations := [{ timestamp := 4000, trigger := c3witTrigger,
                     currentValue := 1 }] }

def c3witMetrics : DeploymentMetrics :=
  { successRate := 0, errorRate := 1, latency := 100, throughput := 1,
    timestamp := 5000, sampleSize := 50 }

/-- A response-time trigger (latency violations are never "critical"). -/
def c4trigger : RollbackTrigger :=
  { metric := TriggerMetric.responseTime, threshold := 2000, duration := 30 }

def c4plan : RollbackPlan :=
  { id := "rollback_d2", deploymentId := "d2",
    trigger := PlanTriggerKind.automatic,
    strategy := RollbackStrategy.immediate, preserveData := true,
    backupLocation := none, triggers := some [c4trigger] }

def c4priorViolation (ts : Int) : RollbackViolation :=
  { timestamp := ts, trigger := c4trigger, currentValue := 5000 }

/-- A monitor that has already seen the same response-time violation in two
recent polls (90s and 95s); the third poll arrives at 100s. -/
def c4monitor : RollbackMonitor :=
  { id := "mon-2", deploymentId := "d2", rollbackPlan := c4plan,
    startTime := 0, active := true, checks := 2, lastCheck := 95000,
    violations := [c4priorViolation 90000, c4priorViolation 95000] }

/-- Metrics with healthy rates but latency 5000ms above the 2000ms
threshold — a sustained, non-critical violation. -/
def c4metrics : DeploymentMetrics :=
  { successRate := 1, errorRate := 0, latency := 5000, throughput := 1,
    timestamp := 100000, sampleSize := 50 }

/-- A one-stage deployment plan with the default thresholds. -/
def c5plan : DeploymentPlan :=
  { id := "d5", fixId := "middleware_1",
    stages := [{ percentage := 10, duration := 30, successThreshold := 19/20,
                 maxErrorRate := 1/20 }],
    rollbackThresholds := c2thresholds,
    monitoringWindowSize := 30, monitoringSampleFrequency := 5 }

/-- A deployment that has already been rolled back: stage `failed`, traffic
0, one rollback event in the log. -/
def c5status : DeploymentStatus :=
  { id := "d5", stage := Stage.failed, currentStage := 0,
    trafficPercentage := 0, startTime := 0, lastUpdate := 500,
    metrics := { baseline := getEmptyMetrics 0, current := getEmptyMetrics 0,
                 history := [] },
    events := [{ timestamp := 400, etype := EventType.rollback,
                 message := "Deployment rolled back (automatic)" }] }

def c5deployment : ActiveDeployment :=
  { id := "d5", middleware := c6def, plan := c5plan, status := c5status,
    stageStartTime := 100 }

/-- A system holding only the already-rolled-back deployment `d5`; metrics
collection for its endpoint has already been stopped. -/
def c5sys : SystemState :=
  { canary := { deployments := [("d5", c5deployment)], featureFlags := [] },
    collector := { endpointMetrics := [], baselines := [],
                   activeCollectors := [] },
    injector := c6state }

/-- A mid-stage (monitoring, 50% traffic) deployment for the C9 witness. -/
def c9status : DeploymentStatus :=
  { id := "d9", stage := Stage.monitoring, currentStage := 1,
    trafficPercentage := 50, startTime := 0, lastUpdate := 300,
    metrics := { baseline := getEmptyMetrics 0, current := getEmptyMetrics 0,
                 history := [] },
    events := [] }

def c9deployment : ActiveDeployment :=
  { id := "d9", middleware := c6def, plan := c5plan, status := c9status,
    stageStartTime := 200 }

/-- A system with one mid-stage deployment and one active patch. -/
def c9sys : SystemState :=
  { canary := { deployments := [("d9", c9deployment)],
                featureFlags := [("deployment_d9",
                  { key := "deployment_d9", enabled := true,
                    rolloutPercentage := 50 })] },
    collector := { endpointMetrics := [], baselines := [],
                   activeCollectors := ["/api/signup"] },
    injector := c6state }

/-- A canary stage at a given percentage with default stage parameters. -/
def c1stage (p : ℚ) : CanaryStage :=
  { percentage := p, duration := 30, successThreshold := 19/20,
    maxErrorRate := 1/20 }

/-- A legal but decreasing plan: 50% then 10%. -/
def c1badPlan : DeploymentPlan :=
  { id := "d1b", fixId := "m1", stages := [c1stage 50, c1stage 10],
    rollbackThresholds := c2thresholds, monitoringWindowSize := 30,
    monitoringSampleFrequency := 5 }

/-- The freshly-initialized status `deployCanary` creates (canary.ts:42-55):
planning stage, stage index -1, traffic 0. -/
def c1initStatus (id : String) : DeploymentStatus :=
  { id := id, stage := Stage.planning, currentStage := -1,
    trafficPercentage := 0, startTime := 0, lastUpdate := 0,
    metrics := { baseline := getEmptyMetrics 0, current := getEmptyMetrics 0,
                 history := [] },
    events := [] }

def c1badDeployment : ActiveDeployment :=
  { id := "d1b", middleware := c6def, plan := c1badPlan,
    status := c1initStatus "d1b", stageStartTime := 0 }

/-- The default plan of `createDeploymentPlan` (canary.ts:354-371):
stages 10% / 50% / 100%. -/
def c1goodPlan : DeploymentPlan :=
  { id := "d1g", fixId := "m1",
    stages := [c1stage 10, c1stage 50, c1stage 100],
    rollbackThresholds := c2thresholds, monitoringWindowSize := 30,
    monitoringSampleFrequency := 5 }

def c1goodDeployment : ActiveDeployment :=
  { id := "d1g", middleware := c6def, plan := c1goodPlan,
    status := c1initStatus "d1g", stageStartTime := 0 }

/-! ### Association-list lemmas -/

theorem alookup_mapDelete_self {β : Type} (l : List (String × β)) (k : String) :
    alookup k (mapDelete l k) = none := by
  induction l with
  | nil => rfl
  | cons kv rest ih =>
    rcases kv with ⟨k1, v1⟩
    by_cases h : k1 = k
    · simpa [mapDelete, List.filter_cons, h] using ih
    · simpa [mapDelete, List.filter_cons, h, alookup] using ih

theorem alookup_mapSet_self {β : Type} (l : List (String × β)) (k : String)
    (v : β) : alookup k (mapSet l k v) = some v := by
  induction l with
  | nil => simp [mapSet, alookup]
  | cons kv rest ih =>
    rcases kv with ⟨k1, v1⟩
    by_cases hk : k1 = k
    · simp [mapSet, alookup, hk]
    · simp [mapSet, alookup, hk, ih]

theorem alookup_mapSet_ne {β : Type} (l : List (String × β)) (k k' : String)
    (v : β) (h : k' ≠ k) : alookup k' (mapSet l k v) = alookup k' l := by
  induction l with
  | nil => simp [mapSet, alookup, Ne.symm h]
  | cons kv rest ih =>
    rcases kv with ⟨k1, v1⟩
    by_cases hk : k1 = k
    · subst hk
      simp [mapSet, alookup, Ne.symm h]
    · by_cases hk' : k1 = k'
      · subst hk'
        simp [mapSet, alookup, hk]
      · simp [mapSet, alookup, hk, hk', ih]

theorem alookup_isSome_of_eq_some {β : Type} {l : List (String × β)}
    {k : String} {v : β} (h : alookup k l = some v) :
    (alookup k l).isSome = true := by
  rw [h]; rfl

theorem mem_of_alookup_eq_some {β : Type} {l : List (String × β)} {k : String}
    {v : β} (h : alookup k l = some v) : (k, v) ∈ l := by
  induction l with
  | nil => simp [alookup] at h
  | cons kv rest ih =>
    by_cases hk : kv.1 = k
    · simp only [alookup, hk, if_true, Option.some.injEq] at h
      subst h
      rw [← hk]
      exact List.mem_cons_self kv rest
    · simp only [alookup, hk, if_false] at h
      exact List.mem_cons_of_mem kv (ih h)

/-! ### Claim theorems -/

/-- **C8**: `getMetrics` over zero recorded samples in the window — the
endpoint having no buffer at all, or no request inside the window — returns
the sentinel empty snapshot (all rates 0, latency 0, throughput 0,
sampleSize 0), never a division-by-zero value or an exception. -/
theorem C8_empty_snapshot (s : CollectorState) (endpoint : String)
    (windowSeconds now : Int)
    (h : ∀ em, alookup endpoint s.endpointMetrics = some em →
      recentRequests em windowSeconds now = []) :
    getMetrics s endpoint windowSeconds now = getEmptyMetrics now ∧
    (getMetrics s endpoint windowSeconds now).successRate = 0 ∧
    (getMetrics s endpoint windowSeconds now).errorRate = 0 ∧
    (getMetrics s endpoint windowSeconds now).latency = 0 ∧
    (getMetrics s endpoint windowSeconds now).throughput = 0 ∧
    (getMetrics s endpoint windowSeconds now).sampleSize = 0 := by
  have hmain : getMetrics s endpoint windowSeconds now = getEmptyMetrics now := by
    unfold getMetrics calculateMetrics
    cases halt : alookup endpoint s.endpointMetrics with
    | none => rfl
    | some em =>
      have hr := h em halt
      simp [hr]
  refine ⟨hmain, ?_, ?_, ?_, ?_, ?_⟩ <;> rw [hmain] <;> rfl

/-- Witness for C8 at a collector with an endpoint whose buffer holds one
stale request (outside the 60-second window). -/
theorem C8_empty_snapshot_witness :
    getMetrics
      { endpointMetrics := [("/api/signup",
          { requests := [{ timestamp := 0, statusCode := 500,
                           responseTime := 120, path := "/api/signup" }],
            startTime := 0, lastCleanup := 0 })],
        baselines := [], activeCollectors := ["/api/signup"] }
      "/api/signup" 60 1000000 = getEmptyMetrics 1000000 :=
  (C8_empty_snapshot _ "/api/signup" 60 1000000
    (by
      intro em hem
      simp [alookup] at hem
      subst hem
      decide)).1

/-- **C10**: `getStatistics` is total and division-safe: the average error
rate is 0 when no patches are active and non-negative always, and each
patch's per-middleware error rate is the exact quotient of `errorCount` by
`max requestCount 1`, whose divisor is never zero — so a patch with zero
recorded requests contributes `errorCount / 1`, never a NaN or infinity. -/
theorem C10_stats_division_safe (s : InjectorState) :
    0 ≤ (getStatistics s).averageErrorRate ∧
    ((getStatistics s).totalActive = 0 → (getStatistics s).averageErrorRate = 0) ∧
    (∀ m : InjectedMiddleware,
      perMiddlewareErrorRate m * ((max m.requestCount 1 : ℕ) : ℚ) = (m.errorCount : ℚ)) := by
  have havg : (getStatistics s).averageErrorRate =
      if 0 < (getAllInjections s).length then
        ((getAllInjections s).map perMiddlewareErrorRate).sum /
          ((getAllInjections s).length : ℚ)
      else 0 := rfl
  have hact : (getStatistics s).totalActive = (getAllInjections s).length := rfl
  refine ⟨?_, ?_, ?_⟩
  · rw [havg]
    split
    · apply div_nonneg
      · apply List.sum_nonneg
        intro x hx
        obtain ⟨m, _, rfl⟩ := List.mem_map.mp hx
        exact div_nonneg (Nat.cast_nonneg _) (Nat.cast_nonneg _)
      · exact Nat.cast_nonneg _
    · exact le_refl 0
  · intro h0
    rw [hact] at h0
    rw [havg, h0]
    simp
  · intro m
    have h1 : (((max m.requestCount 1 : ℕ) : ℚ)) ≠ 0 := by
      have : 0 < max m.requestCount 1 :=
        lt_of_lt_of_le Nat.zero_lt_one (le_max_right _ _)
      exact_mod_cast Nat.pos_iff_ne_zero.mp this
    unfold perMiddlewareErrorRate
    exact div_mul_cancel₀ _ h1

/-- Witness for C10: the statistics of an injector with no registered
middleware have average error rate 0. -/
theorem C10_stats_division_safe_witness :
    (getStatistics
      { activeMiddleware := [], middlewareStack := [],
        config := { safeMode := true, validateBeforeDeploy := true,
                    backupPrevious := true, maxConcurrentDeploys := 3 } }).averageErrorRate = 0 :=
  (C10_stats_division_safe _).2.1 (by decide)

/-- **C6**: when the number of registered patches has reached the
`maxConcurrentDeploys` cap, a further `injectMiddleware` call that passes
validation fails with the capacity error — it is not queued — and the
injector state (in particular the registry of active middleware) is
returned exactly unchanged. -/
theorem C6_capacity_error (s : InjectorState) (definition : MiddlewareDefinition)
    (validationOk : Bool) (injectionId : String) (now : Int)
    (hcap : s.config.maxConcurrentDeploys ≤ s.activeMiddleware.length)
    (hval : s.config.validateBeforeDeploy = false ∨ validationOk = true) :
    injectMiddleware s definition validationOk injectionId now =
      (Except.error InjectError.capacityError, s) := by
  unfold injectMiddleware
  have hb : (s.config.validateBeforeDeploy && !validationOk) = false := by
    rcases hval with h | h <;> simp [h]
  rw [hb]
  simp [hcap]

/-- Witness for C6: an injector with cap 1 and one patch already attached
rejects a second, valid attach with the capacity error and keeps its state. -/
theorem C6_capacity_error_witness :
    injectMiddleware c6state c6def true "uuid-2" 2000 =
      (Except.error InjectError.capacityError, c6state) :=
  C6_capacity_error c6state c6def true "uuid-2" 2000 (by decide) (Or.inr rfl)

/-- **C7**: after `removeMiddleware` on an injection id, any invocation of
that injection's wrapper — for any request, matching or not — passes the
request through unchanged to the continuation: the wrapper observes the
injection as absent from the registry, does not run the patch, does not
mutate the request, and records no request or error count (the state is
unchanged). -/
theorem C7_detach_passthrough (s : InjectorState) (injectionId : String)
    (definition : MiddlewareDefinition) (patch : Request → Request × Bool)
    (req : Request) (m : InjectedMiddleware)
    (h : alookup injectionId s.activeMiddleware = some m) :
    wrapperInvoke (removeMiddleware s injectionId).2 injectionId definition
      patch req =
      (WrapOutcome.passedThrough, req, (removeMiddleware s injectionId).2) := by
  have hstate : (removeMiddleware s injectionId).2 =
      { s with
        activeMiddleware := mapDelete s.activeMiddleware injectionId,
        middlewareStack :=
          s.middlewareStack.filter (fun d => d.id ≠ m.definition.id) } := by
    unfold removeMiddleware
    rw [h]
  rw [hstate]
  unfold wrapperInvoke
  rw [show alookup injectionId (mapDelete s.activeMiddleware injectionId) = none
    from alookup_mapDelete_self s.activeMiddleware injectionId]

/-- Witness for C7: detaching the only attached patch makes its wrapper
pass a matching request through untouched. -/
theorem C7_detach_passthrough_witness :
    wrapperInvoke (removeMiddleware c6state "uuid-1").2 "uuid-1" c6def
      (fun r => (r, true)) c7request =
      (WrapOutcome.passedThrough, c7request, (removeMiddleware c6state "uuid-1").2) :=
  C7_detach_passthrough c6state "uuid-1" c6def (fun r => (r, true)) c7request
    c6injected (by decide)

/-- **C2, counterexample**: a window of 5 samples, all successful, passes
every rate check (success rate 1 ≥ 0.9, error rate 0 ≤ 0.1, no baseline so
latency passes), yet `checkHealthThresholds` reports the endpoint unhealthy
— low sample size *by itself* makes the health check fail, contradicting
the claim that the minimum-sample-size gate never fails a check alone. -/
theorem C2_counterexample :
    (checkHealthThresholds c2state "/api/signup" c2thresholds 1000000).checks.successRateOk = true ∧
    (checkHealthThresholds c2state "/api/signup" c2thresholds 1000000).checks.errorRateOk = true ∧
    (checkHealthThresholds c2state "/api/signup" c2thresholds 1000000).checks.latencyOk = true ∧
    (checkHealthThresholds c2state "/api/signup" c2thresholds 1000000).healthy = false := by
  have hm : getMetrics c2state "/api/signup" 60 1000000 =
      { successRate := 1, errorRate := 0, latency := 50, throughput := 2/25,
        timestamp := 1000000, sampleSize := 5 } := by
    simp only [getMetrics, calculateMetrics, c2state, c2request, alookup,
      if_pos rfl, recentRequests]
    norm_num [jsRound1000, jsRound100, round_eq]
  simp only [checkHealthThresholds, hm, c2thresholds]
  norm_num [compareWithBaseline, c2state, alookup]

/-- **C2, amended**: `checkHealthThresholds` has a minimum-sample-size gate
(`sampleSize ≥ 10`) separate from the rate thresholds, but a window of fewer
than 10 samples by itself makes the check report *unhealthy*, with the
insufficient-sample-size issue — it does not protect low-traffic routes
from failing health checks. -/
theorem C2_low_sample_reports_unhealthy (s : CollectorState) (endpoint : String)
    (th : HealthThresholds) (now : Int)
    (h : (getMetrics s endpoint 60 now).sampleSize < 10) :
    (checkHealthThresholds s endpoint th now).healthy = false ∧
    Issue.insufficientSampleSize ∈ (checkHealthThresholds s endpoint th now).issues := by
  have h10 : ¬ (10 ≤ (getMetrics s endpoint 60 now).sampleSize) := by omega
  have hsz : (checkHealthThresholds s endpoint th now).checks.sampleSizeOk = false := by
    show decide (10 ≤ (getMetrics s endpoint 60 now).sampleSize) = false
    simpa using h10
  have hh : (checkHealthThresholds s endpoint th now).healthy = false := by
    have hexp : (checkHealthThresholds s endpoint th now).healthy =
        ((checkHealthThresholds s endpoint th now).checks.successRateOk &&
         (checkHealthThresholds s endpoint th now).checks.errorRateOk &&
         (checkHealthThresholds s endpoint th now).checks.latencyOk &&
         (checkHealthThresholds s endpoint th now).checks.sampleSizeOk) := rfl
    rw [hexp, hsz]
    simp
  refine ⟨hh, ?_⟩
  have hiss : (checkHealthThresholds s endpoint th now).issues =
      if (checkHealthThresholds s endpoint th now).healthy then []
      else identifyIssues (checkHealthThresholds s endpoint th now).checks := rfl
  rw [hiss, hh]
  simp [identifyIssues, hsz]

/-- Witness for the amended C2 at `c2state` (5 samples in the window). -/
theorem C2_low_sample_reports_unhealthy_witness :
    (getMetrics c2state "/api/signup" 60 1000000).sampleSize < 10 ∧
    (checkHealthThresholds c2state "/api/signup" c2thresholds 1000000).healthy = false :=
  have hs : (getMetrics c2state "/api/signup" 60 1000000).sampleSize < 10 := by
    show (getMetrics c2state "/api/signup" 60 1000000).sampleSize < 10
    decide
  ⟨hs, (C2_low_sample_reports_unhealthy c2state "/api/signup" c2thresholds
    1000000 hs).1⟩

theorem performHealthCheckCore_fst (monitor : RollbackMonitor)
    (m : DeploymentMetrics) (now : Int) :
    (performHealthCheckCore monitor m now).1 =
      (if 0 < (evaluateRollbackTriggers m monitor.rollbackPlan.triggers now).length then
        shouldTriggerRollback
          (monitor.violations ++
            evaluateRollbackTriggers m monitor.rollbackPlan.triggers now)
          (evaluateRollbackTriggers m monitor.rollbackPlan.triggers now) now
      else false) := by
  by_cases h : 0 < (evaluateRollbackTriggers m monitor.rollbackPlan.triggers now).length
  · simp [performHealthCheckCore, h]
  · simp [performHealthCheckCore, h]

theorem shouldTriggerRollback_of_critical (h vs : List RollbackViolation)
    (now : Int) (v : RollbackViolation) (hv : v ∈ vs)
    (hc : isCritical v = true) :
    shouldTriggerRollback h vs now = true := by
  unfold shouldTriggerRollback
  have hmem : v ∈ vs.filter isCritical := List.mem_filter.mpr ⟨hv, hc⟩
  have hlen : 0 < (vs.filter isCritical).length :=
    List.length_pos.mpr (List.ne_nil_of_mem hmem)
  simp [hlen]

theorem shouldTriggerRollback_of_sustained (h vs : List RollbackViolation)
    (now : Int) (v : RollbackViolation) (hv : v ∈ vs)
    (hcount : 3 ≤ (((h ++ vs).filter
        (fun u => decide (now - u.timestamp < 60000))).filter
        (fun rv => decide (rv.trigger.metric = v.trigger.metric))).length) :
    shouldTriggerRollback (h ++ vs) vs now = true := by
  unfold shouldTriggerRollback
  by_cases hc : 0 < (vs.filter isCritical).length
  · simp [hc]
  · rw [if_neg hc]
    have hmemS : v ∈ vs.filter (fun w =>
        3 ≤ ((((h ++ vs)).filter (fun u => decide (now - u.timestamp < 60000))).filter
          (fun rv => decide (rv.trigger.metric = w.trigger.metric))).length) := by
      refine List.mem_filter.mpr ⟨hv, ?_⟩
      simpa using hcount
    have hS : 0 < (vs.filter (fun w =>
        3 ≤ ((((h ++ vs)).filter (fun u => decide (now - u.timestamp < 60000))).filter
          (fun rv => decide (rv.trigger.metric = w.trigger.metric))).length)).length :=
      List.length_pos.mpr (List.ne_nil_of_mem hmemS)
    simpa using hS

/-- **C3, counterexample**: a poll observing error rate 0.6 (> 0.5) and
success rate 0.4 (< 0.5) does *not* trigger rollback when the plan's only
trigger has threshold 0.7 — the critical-path check only inspects
violations, and no violation is produced, so the claim's "a single
observation of error-rate > 0.5 triggers immediate rollback for every
monitor state" is false. -/
theorem C3_counterexample :
    ((1 : ℚ) / 2 < c3metrics.errorRate ∧ c3metrics.successRate < (1 : ℚ) / 2) ∧
    (performHealthCheckCore c3monitor c3metrics 1000000).1 = false := by
  constructor
  · constructor <;> norm_num [c3metrics]
  · have hv : evaluateRollbackTriggers c3metrics (some [c3trigger]) 1000000 = [] := by
      norm_num [evaluateRollbackTriggers, triggerViolation, c3trigger, c3metrics]
    simp [performHealthCheckCore, c3monitor, c3plan, hv]

/-- **C3, amended**: for every monitor state — regardless of the violation
history — if the current poll's metrics *violate a configured trigger*
critically (an error-rate trigger is crossed with error rate above 0.5, or
a success-rate trigger is crossed with success rate below 0.5), then the
health-check core decides to roll back on that same poll, with no
three-sample wait. -/
theorem C3_critical_immediate (monitor : RollbackMonitor)
    (m : DeploymentMetrics) (now : Int) (t : RollbackTrigger)
    (ts : List RollbackTrigger)
    (hts : monitor.rollbackPlan.triggers = some ts) (hmem : t ∈ ts)
    (hcrit :
      (t.metric = TriggerMetric.errorRate ∧ t.threshold < m.errorRate ∧
        (1 : ℚ) / 2 < m.errorRate) ∨
      (t.metric = TriggerMetric.successRate ∧ m.successRate < t.threshold ∧
        m.successRate < (1 : ℚ) / 2)) :
    (performHealthCheckCore monitor m now).1 = true := by
  rw [performHealthCheckCore_fst, hts]
  rcases hcrit with ⟨he, hthr, hhalf⟩ | ⟨he, hthr, hhalf⟩
  · have hviol : triggerViolation m t now =
        some { timestamp := now, trigger := t, currentValue := m.errorRate } := by
      simp [triggerViolation, he, hthr]
    have hmemv : ({ timestamp := now, trigger := t, currentValue := m.errorRate } :
        RollbackViolation) ∈ evaluateRollbackTriggers m (some ts) now := by
      unfold evaluateRollbackTriggers
      exact List.mem_filterMap.mpr ⟨t, hmem, hviol⟩
    have hlen : 0 < (evaluateRollbackTriggers m (some ts) now).length :=
      List.length_pos.mpr (List.ne_nil_of_mem hmemv)
    rw [if_pos hlen]
    refine shouldTriggerRollback_of_critical _ _ now _ hmemv ?_
    simp only [isCritical, he]
    simp
    simpa using hhalf
  · have hviol : triggerViolation m t now =
        some { timestamp := now, trigger := t, currentValue := m.successRate } := by
      simp [triggerViolation, he, hthr]
    have hmemv : ({ timestamp := now, trigger := t, currentValue := m.successRate } :
        RollbackViolation) ∈ evaluateRollbackTriggers m (some ts) now := by
      unfold evaluateRollbackTriggers
      exact List.mem_filterMap.mpr ⟨t, hmem, hviol⟩
    have hlen : 0 < (evaluateRollbackTriggers m (some ts) now).length :=
      List.length_pos.mpr (List.ne_nil_of_mem hmemv)
    rw [if_pos hlen]
    refine shouldTriggerRollback_of_critical _ _ now _ hmemv ?_
    simp only [isCritical, he]
    simp
    simpa using hhalf

/-- Witness for the amended C3: with an error-rate trigger configured and an
observation of error rate 1, the monitor (despite a non-empty history)
rolls back on this very poll. -/
theorem C3_critical_immediate_witness :
    (performHealthCheckCore c3witMonitor c3witMetrics 5000).1 = true :=
  C3_critical_immediate c3witMonitor c3witMetrics 5000 c3witTrigger
    [c3witTrigger] rfl (List.mem_singleton.mpr rfl)
    (Or.inl ⟨rfl, by decide, one_half_lt_one⟩)

/-- **C4**: for every monitor state, if the current poll produces a
violation of some trigger, and the monitor's history — including the
current poll's violations — contains at least 3 violations of that same
metric whose timestamps lie within the trailing 60 seconds, then the
health-check core decides to roll back on the current poll, even when no
single observation was critical. -/
theorem C4_sustained_rollback (monitor : RollbackMonitor)
    (m : DeploymentMetrics) (now : Int) (v : RollbackViolation)
    (hv : v ∈ evaluateRollbackTriggers m monitor.rollbackPlan.triggers now)
    (hcount : 3 ≤ (((monitor.violations ++
        evaluateRollbackTriggers m monitor.rollbackPlan.triggers now).filter
          (fun w => decide (now - w.timestamp < 60000))).filter
          (fun rv => decide (rv.trigger.metric = v.trigger.metric))).length) :
    (performHealthCheckCore monitor m now).1 = true := by
  rw [performHealthCheckCore_fst]
  have hlen : 0 < (evaluateRollbackTriggers m monitor.rollbackPlan.triggers now).length :=
    List.length_pos.mpr (List.ne_nil_of_mem hv)
  rw [if_pos hlen]
  exact shouldTriggerRollback_of_sustained _ _ now v hv hcount

/-- Witness for C4: the third non-critical response-time violation within
60 seconds triggers rollback on the current poll. -/
theorem C4_sustained_rollback_witness :
    (performHealthCheckCore c4monitor c4metrics 100000).1 = true :=
  C4_sustained_rollback c4monitor c4metrics 100000
    { timestamp := 100000, trigger := c4trigger, currentValue := 5000 }
    (by decide) (by decide)

/-! ### Rollback-deployment lemmas -/

theorem addEventStatus_stage (st : DeploymentStatus) (e : EventType)
    (msg : String) (now : Int) : (addEventStatus st e msg now).stage = st.stage := rfl

theorem addEventStatus_traffic (st : DeploymentStatus) (e : EventType)
    (msg : String) (now : Int) :
    (addEventStatus st e msg now).trafficPercentage = st.trafficPercentage := rfl

theorem addEventStatus_events_length (st : DeploymentStatus) (e : EventType)
    (msg : String) (now : Int) :
    (addEventStatus st e msg now).events.length =
      min (st.events.length + 1) 50 := by
  simp only [addEventStatus]
  split
  · next h =>
    simp only [List.length_drop] at *
    simp at h ⊢
    omega
  · next h =>
    simp at h ⊢
    omega

theorem rollbackFinishStatus_stage (st : DeploymentStatus) (t : DeployTrigger)
    (now : Int) : (rollbackFinishStatus st t now).stage = Stage.failed := rfl

theorem rollbackFinishStatus_traffic (st : DeploymentStatus) (t : DeployTrigger)
    (now : Int) : (rollbackFinishStatus st t now).trafficPercentage = 0 := rfl

theorem rollbackDeployment_lookup_self (sys : SystemState) (id : String)
    (t : DeployTrigger) (now : Int) (d : ActiveDeployment)
    (hd : alookup id sys.canary.deployments = some d) :
    alookup id (rollbackDeployment sys id t now).canary.deployments =
      some { d with
        status := rollbackFinishStatus (rollbackMarkStatus d.status now) t now } := by
  unfold rollbackDeployment
  rw [hd]
  exact alookup_mapSet_self _ id _

theorem rollbackDeployment_lookup_ne (sys : SystemState) (id id2 : String)
    (t : DeployTrigger) (now : Int) (h : id2 ≠ id) :
    alookup id2 (rollbackDeployment sys id t now).canary.deployments =
      alookup id2 sys.canary.deployments := by
  unfold rollbackDeployment
  cases hd : alookup id sys.canary.deployments with
  | none => rfl
  | some d =>
    show alookup id2 (mapSet (mapSet sys.canary.deployments id _) id _) = _
    rw [alookup_mapSet_ne _ id id2 _ h, alookup_mapSet_ne _ id id2 _ h]

theorem rollbackDeployment_injector (sys : SystemState) (id : String)
    (t : DeployTrigger) (now : Int) :
    (rollbackDeployment sys id t now).injector = sys.injector := by
  unfold rollbackDeployment
  cases hd : alookup id sys.canary.deployments <;> rfl

theorem foldl_rollback_injector (ids : List String) (sys : SystemState)
    (now : Int) :
    (ids.foldl (fun s i => rollbackDeployment s i DeployTrigger.automatic now)
      sys).injector = sys.injector := by
  induction ids generalizing sys with
  | nil => rfl
  | cons i rest ih =>
    rw [List.foldl_cons, ih (rollbackDeployment sys i DeployTrigger.automatic now)]
    exact rollbackDeployment_injector sys i DeployTrigger.automatic now

theorem foldl_rollback_failed (ids : List String) (sys : SystemState)
    (now : Int) (id : String)
    (h : (id ∈ ids ∧ ∃ d, alookup id sys.canary.deployments = some d) ∨
      (∃ d, alookup id sys.canary.deployments = some d ∧
        d.status.stage = Stage.failed)) :
    ∃ d', alookup id
        ((ids.foldl (fun s i => rollbackDeployment s i DeployTrigger.automatic now)
          sys)).canary.deployments = some d' ∧
      d'.status.stage = Stage.failed := by
  induction ids generalizing sys with
  | nil =>
    rcases h with ⟨hmem, _⟩ | ⟨d, hd, hf⟩
    · simp at hmem
    · exact ⟨d, hd, hf⟩
  | cons i rest ih =>
    rw [List.foldl_cons]
    rcases h with ⟨hmem, ⟨d, hd⟩⟩ | ⟨d, hd, hf⟩
    · rcases List.mem_cons.mp hmem with heq | hrest
      · subst heq
        refine ih _ (Or.inr ?_)
        exact ⟨_, rollbackDeployment_lookup_self sys id DeployTrigger.automatic now d hd,
          rollbackFinishStatus_stage _ _ _⟩
      · by_cases hii : id = i
        · subst hii
          refine ih _ (Or.inr ?_)
          exact ⟨_, rollbackDeployment_lookup_self sys id DeployTrigger.automatic now d hd,
            rollbackFinishStatus_stage _ _ _⟩
        · refine ih _ (Or.inl ⟨hrest, ⟨d, ?_⟩⟩)
          rw [rollbackDeployment_lookup_ne sys i id DeployTrigger.automatic now hii]
          exact hd
    · by_cases hii : id = i
      · subst hii
        refine ih _ (Or.inr ?_)
        exact ⟨_, rollbackDeployment_lookup_self sys id DeployTrigger.automatic now d hd,
          rollbackFinishStatus_stage _ _ _⟩
      · refine ih _ (Or.inr ⟨d, ?_, hf⟩)
        rw [rollbackDeployment_lookup_ne sys i id DeployTrigger.automatic now hii]
        exact hd

/-! ### C5 -/

/-- **C5, counterexample**: `rollbackDeployment` on an already-failed
deployment (stage `failed`, traffic 0, one rollback event) is *not* a
no-op: the event log grows from 1 to 2 entries — the rollback path re-runs
and appends another rollback event. -/
theorem C5_counterexample :
    c5deployment.status.stage = Stage.failed ∧
    c5deployment.status.trafficPercentage = 0 ∧
    c5deployment.status.events.length = 1 ∧
    (alookup "d5" (rollbackDeployment c5sys "d5" DeployTrigger.manual
        600).canary.deployments).map (fun d => d.status.events.length) = some 2 := by
  refine ⟨rfl, rfl, rfl, ?_⟩
  rw [rollbackDeployment_lookup_self c5sys "d5" DeployTrigger.manual 600
    c5deployment rfl]
  rfl

/-- **C5, amended**: calling `rollbackDeployment` again on an
already-rolling-back or failed deployment is accepted (no error) and leaves
the terminal state intact — stage ends at `failed`, `trafficPercentage`
stays 0, and the metrics collector and injector are unchanged (collection
for the endpoint was already stopped) — but it is not a pure no-op: it
appends one more rollback event to the (50-bounded) event log. -/
theorem C5_rollback_reentrant (sys : SystemState) (id : String)
    (trigger : DeployTrigger) (now : Int) (d : ActiveDeployment)
    (hd : alookup id sys.canary.deployments = some d)
    (_hstage : d.status.stage = Stage.rollingBack ∨ d.status.stage = Stage.failed)
    (_htraffic : d.status.trafficPercentage = 0)
    (hcol : d.middleware.targetEndpoint ∉ sys.collector.activeCollectors) :
    ∃ d', alookup id (rollbackDeployment sys id trigger now).canary.deployments =
        some d' ∧
      d'.status.stage = Stage.failed ∧
      d'.status.trafficPercentage = 0 ∧
      d'.status.events.length = min (d.status.events.length + 1) 50 ∧
      (rollbackDeployment sys id trigger now).collector = sys.collector ∧
      (rollbackDeployment sys id trigger now).injector = sys.injector := by
  refine ⟨_, rollbackDeployment_lookup_self sys id trigger now d hd, ?_, ?_, ?_, ?_, ?_⟩
  · exact rollbackFinishStatus_stage _ _ _
  · exact rollbackFinishStatus_traffic _ _ _
  · show (rollbackFinishStatus (rollbackMarkStatus d.status now) trigger now).events.length = _
    unfold rollbackFinishStatus
    rw [addEventStatus_events_length]
    rfl
  · have hfil : sys.collector.activeCollectors.filter
        (· ≠ d.middleware.targetEndpoint) = sys.collector.activeCollectors := by
      refine List.filter_eq_self.mpr ?_
      intro a ha
      simp only [decide_eq_true_eq]
      intro heq
      exact hcol (heq ▸ ha)
    unfold rollbackDeployment
    rw [hd]
    show stopCollection sys.collector d.middleware.targetEndpoint = sys.collector
    unfold stopCollection
    rw [hfil]
  · exact rollbackDeployment_injector sys id trigger now

/-- Witness for the amended C5 at `c5sys`. -/
theorem C5_rollback_reentrant_witness :
    ∃ d', alookup "d5" (rollbackDeployment c5sys "d5" DeployTrigger.manual
        600).canary.deployments = some d' ∧
      d'.status.stage = Stage.failed ∧
      d'.status.trafficPercentage = 0 ∧
      d'.status.events.length = min (c5deployment.status.events.length + 1) 50 ∧
      (rollbackDeployment c5sys "d5" DeployTrigger.manual 600).collector =
        c5sys.collector ∧
      (rollbackDeployment c5sys "d5" DeployTrigger.manual 600).injector =
        c5sys.injector :=
  C5_rollback_reentrant c5sys "d5" DeployTrigger.manual 600 c5deployment rfl
    (Or.inr rfl) rfl (by decide)

/-! ### C9 -/

/-- **C9**: after `emergencyRollbackAll`, every deployment that was not
already completed or failed has been driven to the `failed` stage (hence is
in RollingBack-or-Failed as claimed), and the injector reports zero active
patches: every injection record has `active = false`, `getAllInjections`
is empty, and `totalActive` is 0 — for any number of mid-stage deployments.
The hypothesis is the wiring invariant that each deployments-map entry is
keyed by its own status id, which `deployCanary` maintains. -/
theorem C9_emergency_rollback_all (sys : SystemState) (now : Int)
    (hwf : ∀ kv ∈ sys.canary.deployments, kv.2.status.id = kv.1) :
    (∀ id d, alookup id sys.canary.deployments = some d →
      ¬(d.status.stage = Stage.completed ∨ d.status.stage = Stage.failed) →
      ∃ d', alookup id (emergencyRollbackAll sys now).canary.deployments = some d' ∧
        (d'.status.stage = Stage.rollingBack ∨ d'.status.stage = Stage.failed)) ∧
    (∀ kv ∈ (emergencyRollbackAll sys now).injector.activeMiddleware,
      kv.2.active = false) ∧
    getAllInjections (emergencyRollbackAll sys now).injector = [] ∧
    (getStatistics (emergencyRollbackAll sys now).injector).totalActive = 0 := by
  have hinj : (emergencyRollbackAll sys now).injector =
      emergencyStop sys.injector := by
    show emergencyStop (List.foldl _ sys _).injector = _
    rw [foldl_rollback_injector]
  have hnone : ∀ kv ∈ (emergencyStop sys.injector).activeMiddleware,
      kv.2.active = false := by
    intro kv hkv
    unfold emergencyStop at hkv
    simp only [List.mem_map] at hkv
    obtain ⟨kv0, _, rfl⟩ := hkv
    rfl
  refine ⟨?_, ?_, ?_, ?_⟩
  · intro id d hd hstage
    have hmemkv : (id, d) ∈ sys.canary.deployments := mem_of_alookup_eq_some hd
    have hids : id ∈ ((getActiveDeployments sys.canary).filter
        (fun st => !(st.stage == Stage.completed) &&
          !(st.stage == Stage.failed))).map (·.id) := by
      refine List.mem_map.mpr ⟨d.status, ?_, hwf (id, d) hmemkv⟩
      refine List.mem_filter.mpr ⟨?_, ?_⟩
      · exact List.mem_map.mpr ⟨(id, d), hmemkv, rfl⟩
      · rcases not_or.mp hstage with ⟨h1, h2⟩
        simp [h1, h2]
    obtain ⟨d', hd', hf⟩ := foldl_rollback_failed _ sys now id
      (Or.inl ⟨hids, ⟨d, hd⟩⟩)
    exact ⟨d', hd', Or.inr hf⟩
  · rw [hinj]
    exact hnone
  · rw [hinj]
    unfold getAllInjections
    refine List.filter_eq_nil_iff.mpr ?_
    intro m hm
    obtain ⟨kv, hkv, rfl⟩ := List.mem_map.mp hm
    simp [hnone kv hkv]
  · rw [hinj]
    show (getAllInjections (emergencyStop sys.injector)).length = 0
    rw [show getAllInjections (emergencyStop sys.injector) = [] from by
      unfold getAllInjections
      refine List.filter_eq_nil_iff.mpr ?_
      intro m hm
      obtain ⟨kv, hkv, rfl⟩ := List.mem_map.mp hm
      simp [hnone kv hkv]]
    rfl

/-- Witness for C9 at a system with one mid-stage deployment and one active
patch. -/
theorem C9_emergency_rollback_all_witness :
    (∃ d', alookup "d9" (emergencyRollbackAll c9sys 1000).canary.deployments =
        some d' ∧
      (d'.status.stage = Stage.rollingBack ∨ d'.status.stage = Stage.failed)) ∧
    getAllInjections (emergencyRollbackAll c9sys 1000).injector = [] :=
  have h := C9_emergency_rollback_all c9sys 1000 (by decide)
  ⟨h.1 "d9" c9deployment rfl (by decide), h.2.2.1⟩

/-! ### C1: traffic-percentage monotonicity over the deployment trace -/

theorem deployToPercentageStatus_traffic (plan : DeploymentPlan)
    (st : DeploymentStatus) (p : ℚ) (now : Int) :
    (deployToPercentageStatus plan st p now).trafficPercentage = p := rfl

theorem deployToPercentageStatus_stage (plan : DeploymentPlan)
    (st : DeploymentStatus) (p : ℚ) (now : Int) :
    (deployToPercentageStatus plan st p now).stage = Stage.monitoring := rfl

theorem completeStatus_traffic (st : DeploymentStatus) (now : Int) :
    (completeStatus st now).trafficPercentage = 100 := rfl

theorem completeStatus_stage (st : DeploymentStatus) (now : Int) :
    (completeStatus st now).stage = Stage.completed := rfl

theorem rollbackMarkStatus_traffic (st : DeploymentStatus) (now : Int) :
    (rollbackMarkStatus st now).trafficPercentage = st.trafficPercentage := rfl

theorem rollbackMarkStatus_stage (st : DeploymentStatus) (now : Int) :
    (rollbackMarkStatus st now).stage = Stage.rollingBack := rfl

theorem runStages_chain (plan : DeploymentPlan) (stages : List CanaryStage)
    (outcome : Nat → Bool) (k : Nat) (st : DeploymentStatus) (now : Int)
    (hchain : List.Chain' (· ≤ ·)
      (st.trafficPercentage :: stages.map (·.percentage)))
    (hbound : ∀ s ∈ stages, s.percentage ≤ 100)
    (hst : st.trafficPercentage ≤ 100) :
    List.Chain' (· ≤ ·) (st.trafficPercentage ::
      ((runStages plan st stages outcome k now).filter isActiveOrComplete).map
        (·.trafficPercentage)) := by
  induction stages generalizing k st with
  | nil =>
    show List.Chain' (· ≤ ·) [st.trafficPercentage, (100 : ℚ)]
    exact List.chain'_pair.mpr hst
  | cons s rest ih =>
    rw [show runStages plan st (s :: rest) outcome k now =
      (if outcome k then
        deployToPercentageStatus plan st s.percentage now ::
          runStages plan (deployToPercentageStatus plan st s.percentage now)
            rest outcome (k + 1) now
      else
        deployToPercentageStatus plan st s.percentage now ::
          rollbackStatusTrace (deployToPercentageStatus plan st s.percentage now)
            DeployTrigger.automatic now) from rfl]
    have hhead : st.trafficPercentage ≤ s.percentage := by
      rw [List.map_cons] at hchain
      exact (List.chain'_cons.mp hchain).1
    by_cases ho : outcome k = true
    · rw [if_pos ho]
      show List.Chain' (· ≤ ·) (st.trafficPercentage :: s.percentage ::
        ((runStages plan (deployToPercentageStatus plan st s.percentage now)
          rest outcome (k + 1) now).filter isActiveOrComplete).map
            (·.trafficPercentage))
      refine List.chain'_cons.mpr ⟨hhead, ?_⟩
      exact ih (k + 1) (deployToPercentageStatus plan st s.percentage now)
        (by
          rw [List.map_cons] at hchain
          exact (List.chain'_cons.mp hchain).2)
        (fun u hu => hbound u (List.mem_cons_of_mem s hu))
        (hbound s (List.mem_cons_self s rest))
    · rw [if_neg ho]
      show List.Chain' (· ≤ ·) [st.trafficPercentage, s.percentage]
      exact List.chain'_pair.mpr hhead

theorem runStages_zero_iff (plan : DeploymentPlan) (stages : List CanaryStage)
    (outcome : Nat → Bool) (k : Nat) (st : DeploymentStatus) (now : Int)
    (hpos : ∀ s ∈ stages, 0 < s.percentage) :
    ∀ st' ∈ runStages plan st stages outcome k now,
      (st'.trafficPercentage = 0 → st'.stage = Stage.failed) ∧
      (st'.stage = Stage.failed → st'.trafficPercentage = 0) := by
  induction stages generalizing k st with
  | nil =>
    intro st' hmem
    rw [show runStages plan st [] outcome k now = [completeStatus st now]
      from rfl] at hmem
    rcases List.mem_singleton.mp hmem with rfl
    constructor
    · intro h0
      rw [completeStatus_traffic] at h0
      exact absurd h0 (by decide)
    · intro hf
      rw [completeStatus_stage] at hf
      exact absurd hf (by decide)
  | cons s rest ih =>
    intro st' hmem
    have hs0 : 0 < s.percentage := hpos s (List.mem_cons_self s rest)
    rw [show runStages plan st (s :: rest) outcome k now =
      (if outcome k then
        deployToPercentageStatus plan st s.percentage now ::
          runStages plan (deployToPercentageStatus plan st s.percentage now)
            rest outcome (k + 1) now
      else
        deployToPercentageStatus plan st s.percentage now ::
          rollbackStatusTrace (deployToPercentageStatus plan st s.percentage now)
            DeployTrigger.automatic now) from rfl] at hmem
    by_cases ho : outcome k = true
    · rw [if_pos ho] at hmem
      rcases List.mem_cons.mp hmem with rfl | htail
      · constructor
        · intro h0
          rw [deployToPercentageStatus_traffic] at h0
          exact absurd hs0 (by rw [h0]; exact lt_irrefl 0)
        · intro hf
          rw [deployToPercentageStatus_stage] at hf
          exact absurd hf (by decide)
      · exact ih (k + 1) _ (fun u hu => hpos u (List.mem_cons_of_mem s hu)) st' htail
    · rw [if_neg ho] at hmem
      rcases List.mem_cons.mp hmem with rfl | htail
      · constructor
        · intro h0
          rw [deployToPercentageStatus_traffic] at h0
          exact absurd hs0 (by rw [h0]; exact lt_irrefl 0)
        · intro hf
          rw [deployToPercentageStatus_stage] at hf
          exact absurd hf (by decide)
      · rcases List.mem_cons.mp htail with rfl | htail2
        · constructor
          · intro h0
            rw [rollbackMarkStatus_traffic, deployToPercentageStatus_traffic] at h0
            exact absurd hs0 (by rw [h0]; exact lt_irrefl 0)
          · intro hf
            rw [rollbackMarkStatus_stage] at hf
            exact absurd hf (by decide)
        · rcases List.mem_singleton.mp htail2 with rfl
          exact ⟨fun _ => rollbackFinishStatus_stage _ _ _,
            fun _ => rollbackFinishStatus_traffic _ _ _⟩

/-- **C1, counterexample**: with the (legal) decreasing plan 50% → 10% and
both stages passing their monitors, the sequence of Deploying/Monitoring/
completion traffic values is `[0, 50, 10, 100]` — trafficPercentage
*decreases* between two Monitoring updates, so the claim "for every
deployment trafficPercentage is monotonically non-decreasing while
Deploying/Monitoring" is false. -/
theorem C1_counterexample :
    ((processDeploymentTrace c1badDeployment (fun _ => true) 0).filter
        isActiveOrComplete).map (·.trafficPercentage) = [0, 50, 10, 100] ∧
    ¬ trafficNonDecreasing
      (processDeploymentTrace c1badDeployment (fun _ => true) 0) := by
  have hlist : ((processDeploymentTrace c1badDeployment (fun _ => true) 0).filter
      isActiveOrComplete).map (·.trafficPercentage) = [0, 50, 10, 100] := by decide
  refine ⟨hlist, ?_⟩
  unfold trafficNonDecreasing
  rw [hlist]
  intro hchain
  have h2 := (List.chain'_cons.mp ((List.chain'_cons.mp hchain).2)).1
  exact absurd h2 (by decide)

/-- **C1, amended**: for every deployment whose plan's stage percentages
are positive, at most 100, and non-decreasing — the default 10/50/100 plan
qualifies — and whose status starts at traffic 0, the `processDeployment`
status trace satisfies: (i) traffic is non-decreasing across the
Deploying/Monitoring updates and the completion update; (ii) traffic is 0
only at the initial Deploying update (before the first stage) or at the
Failed update produced by rollback — in particular a traffic *drop* to 0
happens only via rollback, whose transient RollingBack update keeps the
previous positive traffic and whose final update sets traffic 0 together
with stage Failed; (iii) every Failed status has traffic 0. -/
theorem C1_traffic_monotone (d : ActiveDeployment) (outcome : Nat → Bool)
    (now : Int)
    (hsorted : List.Chain' (· ≤ ·) (d.plan.stages.map (·.percentage)))
    (hpos : ∀ s ∈ d.plan.stages, 0 < s.percentage ∧ s.percentage ≤ 100)
    (hinit : d.status.trafficPercentage = 0) :
    trafficNonDecreasing (processDeploymentTrace d outcome now) ∧
    (∀ st ∈ processDeploymentTrace d outcome now,
      st.trafficPercentage = 0 →
        st.stage = Stage.deploying ∨ st.stage = Stage.failed) ∧
    (∀ st ∈ processDeploymentTrace d outcome now,
      st.stage = Stage.failed → st.trafficPercentage = 0) := by
  have hchain0 : List.Chain' (· ≤ ·)
      ((startDeployingStatus d.status now).trafficPercentage ::
        d.plan.stages.map (·.percentage)) := by
    refine List.chain'_cons'.mpr ⟨?_, hsorted⟩
    intro b hb
    have hbmem : b ∈ d.plan.stages.map (·.percentage) := by
      cases hl : d.plan.stages.map (·.percentage) with
      | nil => rw [hl] at hb; simp at hb
      | cons x xs =>
        rw [hl] at hb
        simp only [List.head?_cons, Option.mem_def, Option.some.injEq] at hb
        rw [← hb]
        exact List.mem_cons_self x xs
    obtain ⟨u, hu, rfl⟩ := List.mem_map.mp hbmem
    show (startDeployingStatus d.status now).trafficPercentage ≤ u.percentage
    rw [show (startDeployingStatus d.status now).trafficPercentage =
        d.status.trafficPercentage from rfl, hinit]
    exact le_of_lt (hpos u hu).1
  have hst100 : (startDeployingStatus d.status now).trafficPercentage ≤ 100 := by
    rw [show (startDeployingStatus d.status now).trafficPercentage =
        d.status.trafficPercentage from rfl, hinit]
    decide
  refine ⟨?_, ?_, ?_⟩
  · unfold trafficNonDecreasing
    exact runStages_chain d.plan d.plan.stages outcome 0 _ now hchain0
      (fun s hs => (hpos s hs).2) hst100
  · intro st hmem h0
    rcases List.mem_cons.mp hmem with rfl | htail
    · exact Or.inl rfl
    · exact Or.inr ((runStages_zero_iff d.plan d.plan.stages outcome 0 _ now
        (fun s hs => (hpos s hs).1) st htail).1 h0)
  · intro st hmem hf
    rcases List.mem_cons.mp hmem with rfl | htail
    · rw [show (startDeployingStatus d.status now).stage = Stage.deploying
        from rfl] at hf
      exact absurd hf (by decide)
    · exact (runStages_zero_iff d.plan d.plan.stages outcome 0 _ now
        (fun s hs => (hpos s hs).1) st htail).2 hf

/-- Witness for the amended C1 at the default 10/50/100 plan with all
stages passing. -/
theorem C1_traffic_monotone_witness :
    trafficNonDecreasing (processDeploymentTrace c1goodDeployment
      (fun _ => true) 0) ∧
    (∀ st ∈ processDeploymentTrace c1goodDeployment (fun _ => true) 0,
      st.stage = Stage.failed → st.trafficPercentage = 0) :=
  have h := C1_traffic_monotone c1goodDeployment (fun _ => true) 0
    (by
      rw [show c1goodDeployment.plan.stages.map (·.percentage) =
        [10, 50, 100] from rfl]
      exact List.chain'_cons.mpr ⟨by decide,
        List.chain'_cons.mpr ⟨by decide, List.chain'_singleton _⟩⟩)
    (by decide) rfl
  ⟨h.1, h.2.2⟩

end SelfHealingAPI
